import Mathlib

/-!
# Storefront header components and style configuration

A shallow embedding of

* `frontend/src/components/Common/Navbar.jsx`
* `frontend/src/components/Common/Header.jsx`
* `frontend/tailwind.config.js`

The two components are transcribed as JSX syntax trees (raw text runs and
comment containers included) and evaluated by `render`, which applies the
JSX child rules: a comment container yields no child, a text run is cleaned
line by line and dropped when nothing is left, an expression container is
evaluated in the environment of the invocation (its props and the ambient
values: hook state, context, globals).  The configuration is transcribed as
a JavaScript object literal.
-/

namespace Storefront

/-! ## JSX syntax and rendered trees -/

/-- Attribute list of a JSX element, or the props handed to a component. -/
abbrev Props := List (String × String)

/-- Values an invocation can read besides its props, by name: hook state,
context values and globals at the time of the invocation. -/
abbrev Ambient := String → Option String

/-- What one invocation of a component can observe. -/
structure RenderEnv where
  props : Props
  ambient : Ambient

/-- Expressions of a JSX expression container `{...}`: a string literal, a
read of a prop, or a read of an ambient value. -/
inductive JsExpr where
  | lit (s : String)
  | prop (name : String)
  | ambient (name : String)
  deriving DecidableEq

/-- JSX syntax as it is written in the source: text runs, comment containers,
expression containers, elements and fragments. Attribute values are string
literals, the only form the two components use. -/
inductive Jsx where
  | text (raw : String)
  | comment (body : String)
  | expr (e : JsExpr)
  | elem (tag : String) (attrs : Props) (children : List Jsx)
  | frag (children : List Jsx)

/-- Rendered tree. -/
inductive Node where
  | text (s : String)
  | elem (tag : String) (attrs : Props) (children : List Node)
  | frag (children : List Node)

/-- A function component: it is invoked with an environment and returns a
tree. -/
abbrev Component := RenderEnv → Node

/-- Components in scope of a JSX expression, by the identifier used as tag. -/
abbrev Scope := String → Option Component

/-- Value of an expression in the environment of an invocation; `none` is
`undefined`. -/
def evalExpr (env : RenderEnv) : JsExpr → Option String
  | .lit s => some s
  | .prop name => env.props.lookup name
  | .ambient name => env.ambient name

/-! ### JSX text cleaning -/

/-- Split a character list at line breaks. -/
def splitLines : List Char → List (List Char)
  | [] => [[]]
  | c :: cs =>
    match splitLines cs with
    | [] => [[]]
    | l :: ls => if c = '\n' ∨ c = '\r' then [] :: l :: ls else (c :: l) :: ls

/-- Drop leading blanks (spaces and tabs). -/
def dropBlanks : List Char → List Char
  | [] => []
  | c :: cs => if c = ' ' ∨ c = '\t' then dropBlanks cs else c :: cs

/-- Drop trailing blanks. -/
def dropBlanksEnd (l : List Char) : List Char :=
  (dropBlanks l.reverse).reverse

/-- Tabs count as spaces inside a text run. -/
def untab (l : List Char) : List Char :=
  l.map (fun c => if c = '\t' then ' ' else c)

/-- Trim the lines of a text run: every line but the first loses its leading
blanks, every line but the last its trailing blanks. -/
def trimLines : Bool → List (List Char) → List (List Char)
  | _, [] => []
  | first, [l] => [if first then untab l else dropBlanks (untab l)]
  | first, l :: l2 :: ls =>
    dropBlanksEnd (if first then untab l else dropBlanks (untab l)) :: trimLines false (l2 :: ls)

/-- Join lines with single spaces. -/
def joinLines : List (List Char) → List Char
  | [] => []
  | [l] => l
  | l :: l2 :: ls => l ++ ' ' :: joinLines (l2 :: ls)

/-- The string a JSX text run contributes; empty when it contributes none. -/
def cleanJsxText (raw : String) : String :=
  String.mk (joinLines ((trimLines true (splitLines raw.data)).filter (fun l => !l.isEmpty)))

/-! ### Rendering -/

mutual
/-- Evaluate one JSX child in the environment of the invocation; `none` when
it contributes no node. A tag bound in the scope is a component of this
repository and is invoked with the attributes as props, under the same
ambient values; any other tag (a host element, or a library component such
as `Link` or `HiOutlineUser`) stays an element of the tree. -/
def render (env : RenderEnv) (scope : Scope) : Jsx → Option Node
  | .text raw =>
    let s := cleanJsxText raw
    if s = "" then none else some (.text s)
  | .comment _ => none
  | .expr e =>
    match evalExpr env e with
    | some s => some (.text s)
    | none => none
  | .elem tag attrs children =>
    match scope tag with
    | some component => some (component ⟨attrs, env.ambient⟩)
    | none => some (.elem tag attrs (renderChildren env scope children))
  | .frag children => some (.frag (renderChildren env scope children))
/-- Evaluate a list of JSX children, in order. -/
def renderChildren (env : RenderEnv) (scope : Scope) : List Jsx → List Node
  | [] => []
  | c :: cs =>
    match render env scope c with
    | some n => n :: renderChildren env scope cs
    | none => renderChildren env scope cs
end

/-- Evaluate the JSX expression a component returns. -/
def renderRoot (env : RenderEnv) (scope : Scope) (j : Jsx) : Node :=
  match render env scope j with
  | some n => n
  | none => .frag []

mutual
/-- The reads of props and ambient values in the expression containers of a
JSX expression, in document order. -/
def Jsx.reads : Jsx → List JsExpr
  | .text _ => []
  | .comment _ => []
  | .expr (.lit _) => []
  | .expr (.prop name) => [.prop name]
  | .expr (.ambient name) => [.ambient name]
  | .elem _ _ children => Jsx.readsList children
  | .frag children => Jsx.readsList children
/-- The reads of a list of JSX children. -/
def Jsx.readsList : List Jsx → List JsExpr
  | [] => []
  | c :: cs => Jsx.reads c ++ Jsx.readsList cs
end

/-- Scope with no component of this repository: every tag stays an element. -/
def noComponents : Scope := fun _ => none

/-! ## Navbar.jsx -/

/-- The JSX expression returned by `Navbar`. -/
def NavbarJsx : Jsx :=
  .frag [
    .text "\n      ",
    .elem "nav" [("className", "container mx-auto flex items-center justify-between py-4 px-6")] [
      .text "\n        ",
      .comment " Left - Logo ",
      .text "\n        ",
      .elem "div" [] [
        .text "\n          ",
        .elem "Link" [("to", "/"), ("className", "text-2xl font-medium")] [
          .text "\n            Rabbit\n          "],
        .text "\n        "],
      .text "\n        ",
      .comment " Center Navigation Links ",
      .text "\n        ",
      .elem "div" [("className", "hidden md:flex space-x-6")] [
        .text "\n          ",
        .elem "Link"
          [("to", "#"),
           ("className", "text-gray-700 hover:text-black text-sm font-medium uppercase")] [
          .text "\n            Men\n          "],
        .text "\n          ",
        .elem "Link"
          [("to", "#"),
           ("className", "text-gray-700 hover:text-black text-sm font-medium uppercase")] [
          .text "\n            Women\n          "],
        .text "\n          ",
        .elem "Link"
          [("to", "#"),
           ("className", "text-gray-700 hover:text-black text-sm font-medium uppercase")] [
          .text "\n            Top Wear\n          "],
        .text "\n          ",
        .elem "Link"
          [("to", "#"),
           ("className", "text-gray-700 hover:text-black text-sm font-medium uppercase")] [
          .text "\n            Bottom Wear\n          "],
        .text "\n        "],
      .text "\n        ",
      .comment " Right - Icons ",
      .text "\n        ",
      .elem "div" [("className", "flex items-center space-x-4")] [
        .text "\n          ",
        .elem "Link" [("to", "/profile"), ("className", "hover:text-black")] [
          .text "\n            ",
          .elem "HiOutlineUser" [] [],
          .text "\n          "],
        .text "\n        "],
      .text "\n      "],
    .text "\n    "]

/-- `function Navbar()`: the body is the single `return` of `NavbarJsx`,
evaluated in the environment of the invocation. -/
def Navbar (env : RenderEnv) : Node :=
  renderRoot env noComponents NavbarJsx

/-! ## Header.jsx -/

/-- The JSX expression returned by `Header`. -/
def HeaderJsx : Jsx :=
  .elem "header" [] [
    .text "\n      ",
    .comment " Topbar",
    .text "\n      ",
    .elem "Topbar" [] [],
    .text "\n      ",
    .comment "navBar",
    .text "\n      ",
    .elem "Navbar" [] [],
    .text "\n      ",
    .comment "Cart Drawer ",
    .text "\n    "]

/-- The imports of `Header.jsx`: `Topbar` from `../Layout/Topbar`, which is
taken as a parameter, and `Navbar`. -/
def headerScope (Topbar : Component) : Scope := fun tag =>
  if tag = "Topbar" then some Topbar
  else if tag = "Navbar" then some Navbar
  else none

/-- `const Header = () => ...`: the body is the single `return` of
`HeaderJsx`, evaluated in the environment of the invocation. -/
def Header (Topbar : Component) (env : RenderEnv) : Node :=
  renderRoot env (headerScope Topbar) HeaderJsx

/-! ## Queries on rendered trees -/

/-- Children of a node; a text node has none. -/
def Node.children : Node → List Node
  | .text _ => []
  | .elem _ _ cs => cs
  | .frag cs => cs

/-- Value of an attribute of an element. -/
def Node.attr? (name : String) : Node → Option String
  | .elem _ attrs _ => attrs.lookup name
  | _ => none

mutual
/-- Concatenated text of a node, in document order. -/
def Node.textContent : Node → String
  | .text s => s
  | .elem _ _ cs => Node.textContentList cs
  | .frag cs => Node.textContentList cs
/-- Concatenated text of a list of nodes. -/
def Node.textContentList : List Node → String
  | [] => ""
  | n :: ns => Node.textContent n ++ Node.textContentList ns
end

mutual
/-- All `Link` elements of a tree, in document order. -/
def Node.links : Node → List Node
  | .text _ => []
  | .elem tag attrs cs =>
    if tag = "Link" then .elem tag attrs cs :: Node.linksList cs else Node.linksList cs
  | .frag cs => Node.linksList cs
/-- All `Link` elements of a list of trees, in document order. -/
def Node.linksList : List Node → List Node
  | [] => []
  | n :: ns => Node.links n ++ Node.linksList ns
end

/-- Destination of a link: its `to` attribute. -/
def Node.target (n : Node) : Option String := n.attr? "to"

/-- The regions of a bar: the children of the `nav` element that is the only
child of the fragment `Navbar` returns. -/
def navRegions : Node → List Node
  | .frag [.elem "nav" _ regions] => regions
  | _ => []

/-! ## tailwind.config.js -/

/-- JavaScript values that occur in the configuration literal. -/
inductive JsVal where
  | str (s : String)
  | arr (items : List JsVal)
  | obj (fields : List (String × JsVal))

/-- Property read `v[key]`; `none` for a missing key or a non-object. -/
def JsVal.get? (key : String) : JsVal → Option JsVal
  | .obj fields => fields.lookup key
  | _ => none

/-- Chained property read `v[k1][k2]...`. -/
def JsVal.path? : List String → JsVal → Option JsVal
  | [], v => some v
  | k :: ks, v =>
    match v.get? k with
    | some w => JsVal.path? ks w
    | none => none

/-- The string held by a string value. -/
def JsVal.str? : JsVal → Option String
  | .str s => some s
  | _ => none

/-- The strings held by an array of strings. -/
def JsVal.strings? : JsVal → Option (List String)
  | .arr items => items.mapM JsVal.str?
  | _ => none

/-- The fields of an object. -/
def JsVal.fields? : JsVal → Option (List (String × JsVal))
  | .obj fields => some fields
  | _ => none

/-- The default export of `tailwind.config.js`. The second content pattern
is `./src/**/*.{js,ts,jsx,tsx}`; its braces are written as escapes. -/
def tailwindConfig : JsVal :=
  .obj [
    ("content", .arr [.str "./index.html", .str "./src/**/*.\x7bjs,ts,jsx,tsx\x7d"]),
    ("theme", .obj [
      ("extend", .obj [
        ("colors", .obj [
          ("rabbit-red", .str "#ea2e0e")])])]),
    ("plugins", .arr [])]

/-- The `content` patterns of the configuration. -/
def contentPatterns : List String :=
  ((tailwindConfig.get? "content").bind JsVal.strings?).getD []

/-! ### Palette resolution of the style tool -/

/-- A palette: colour names with their values. -/
abbrev Palette := List (String × JsVal)

/-- Modelled from the spec: assignment of one key of a palette, as the
style tool (absent from the repository) does when it adds an extension key:
an existing key gets the new value, a new key is appended. -/
def setKey (k : String) (v : JsVal) : Palette → Palette
  | [] => [(k, v)]
  | (k', v') :: rest => if k' = k then (k, v) :: rest else (k', v') :: setKey k v rest

/-- Modelled from the spec: extend semantics of the style tool (absent from
the repository): the keys of the extension are added to the palette. -/
def extendPalette (base ext : Palette) : Palette :=
  ext.foldl (fun acc kv => setKey kv.1 kv.2 acc) base

/-- Modelled from the spec: palette resolution of the style tool (absent from
the repository): a `theme.colors` object replaces the base palette, and the
`theme.extend.colors` object is then merged into the result. -/
def resolveColors (config : JsVal) (base : Palette) : Palette :=
  let start := ((config.path? ["theme", "colors"]).bind JsVal.fields?).getD base
  match (config.path? ["theme", "extend", "colors"]).bind JsVal.fields? with
  | some ext => extendPalette start ext
  | none => start

/-! ### Glob matching of the style tool -/

/-- Modelled from the spec: the tokens of a glob pattern of the style tool's
file scanner (absent from the repository): a literal character, `*`, the
directory wildcard `**/`, and a brace list of alternatives. -/
inductive GlobTok where
  | lit (c : Char)
  | star
  | globstar
  | alt (options : List (List Char))

/-- Modelled from the spec: state of the glob tokenizer (the scanner is
absent from the repository): outside any construct, after one `*`, after
`**`, or inside braces with the alternatives read so far. -/
inductive GlobState where
  | plain
  | star1
  | star2
  | brace (done : List (List Char)) (cur : List Char)

/-- Modelled from the spec: one step of the glob tokenizer (the scanner is
absent from the repository): the tokens completed by a character and the
state after it. -/
def globStep : GlobState → Char → List GlobTok × GlobState
  | .plain, c =>
    if c = '{' then ([], .brace [] [])
    else if c = '*' then ([], .star1)
    else ([.lit c], .plain)
  | .star1, c =>
    if c = '*' then ([], .star2)
    else if c = '{' then ([.star], .brace [] [])
    else ([.star, .lit c], .plain)
  | .star2, c =>
    if c = '/' then ([.globstar], .plain)
    else if c = '*' then ([.star], .star2)
    else if c = '{' then ([.star, .star], .brace [] [])
    else ([.star, .star, .lit c], .plain)
  | .brace done cur, c =>
    if c = '}' then ([.alt (done ++ [cur])], .plain)
    else if c = ',' then ([], .brace (done ++ [cur]) [])
    else ([], .brace done (cur ++ [c]))

/-- Modelled from the spec: tokenizer of glob patterns (the scanner is absent
from the repository). -/
def parseGlob : GlobState → List Char → List GlobTok
  | .plain, [] => []
  | .star1, [] => [.star]
  | .star2, [] => [.star, .star]
  | .brace _ _, [] => []
  | st, c :: rest => (globStep st c).1 ++ parseGlob (globStep st c).2 rest

/-- Remove a prefix from a character list, when it is one. -/
def stripLeading : List Char → List Char → Option (List Char)
  | [], s => some s
  | _ :: _, [] => none
  | p :: ps, c :: cs => if p = c then stripLeading ps cs else none

/-- Modelled from the spec: `*` of the scanner's globs (absent from the
repository): any run of characters inside one path segment, then `k`. -/
def starRest (k : List Char → Bool) : List Char → Bool
  | [] => k []
  | c :: cs => k (c :: cs) || (c != '/' && starRest k cs)

/-- Continue with `k` right after some `/` of the path. -/
def afterSlash (k : List Char → Bool) : List Char → Bool
  | [] => false
  | c :: cs => (c == '/' && k cs) || afterSlash k cs

/-- Modelled from the spec: `**/` of the scanner's globs (absent from the
repository): any number of nested directories, none included, then `k`. -/
def dirsRest (k : List Char → Bool) (s : List Char) : Bool :=
  k s || afterSlash k s

/-- Modelled from the spec: match a tokenized glob against a path (the
scanner is absent from the repository). -/
def matchToks : List GlobTok → List Char → Bool
  | [] => fun s => s.isEmpty
  | .lit c :: ts => fun s =>
    match s with
    | x :: xs => x == c && matchToks ts xs
    | [] => false
  | .star :: ts => starRest (matchToks ts)
  | .globstar :: ts => dirsRest (matchToks ts)
  | .alt options :: ts => fun s =>
    options.any (fun o =>
      match stripLeading o s with
      | some r => matchToks ts r
      | none => false)

/-- Modelled from the spec: glob matching of a path against a pattern (the
scanner is absent from the repository). -/
def globMatch (pattern path : String) : Bool :=
  matchToks (parseGlob .plain pattern.data) path.data

/-- The path prefix made of nested directories: `d1/d2/.../`. -/
def nestedDirs : List String → String
  | [] => ""
  | d :: ds => d ++ "/" ++ nestedDirs ds

/-- The path `./src/<nested directories>/<name>.<ext>`. -/
def srcPath (dirs : List String) (name ext : String) : String :=
  "./src/" ++ nestedDirs dirs ++ name ++ "." ++ ext

/-! ## Navbar -/

/-- C1: for every invocation of `Navbar`, the nav element has three regions
and the children of the center region are exactly four links whose labels,
in document order, are "Men", "Women", "Top Wear", "Bottom Wear". -/
theorem navbar_center_labels (env : RenderEnv) :
    ∃ l c r, navRegions (Navbar env) = [l, c, r] ∧
      c.children = c.links ∧
      c.links.length = 4 ∧
      c.links.map Node.textContent = ["Men", "Women", "Top Wear", "Bottom Wear"] :=
  ⟨_, _, _, rfl, rfl, rfl, rfl⟩

/-- C3: the tree produced by `Navbar` holds exactly one link with text
"Rabbit"; it targets "/", it is the only link of the left region, and the
left region is the first of the three regions of the nav element. -/
theorem navbar_logo_link (env : RenderEnv) :
    ∃ l c r logo, navRegions (Navbar env) = [l, c, r] ∧
      l.links = [logo] ∧
      logo.textContent = "Rabbit" ∧
      logo.target = some "/" ∧
      (Navbar env).links.filter (fun x => x.textContent == "Rabbit") = [logo] :=
  ⟨_, _, _, _, rfl, rfl, rfl, rfl, rfl⟩

/-- C4: the right region of the tree produced by `Navbar` holds exactly one
link; it targets "/profile", its only child is the `HiOutlineUser` glyph, it
carries no text, and it is the only link of the whole tree that targets
"/profile". -/
theorem navbar_profile_link (env : RenderEnv) :
    ∃ l c r profile, navRegions (Navbar env) = [l, c, r] ∧
      r.links = [profile] ∧
      profile.target = some "/profile" ∧
      profile.children = [Node.elem "HiOutlineUser" [] []] ∧
      profile.textContent = "" ∧
      (Navbar env).links.filter (fun x => x.target == some "/profile") = [profile] :=
  ⟨_, _, _, _, rfl, rfl, rfl, rfl, rfl, rfl⟩

/-- C5: each of the four center links of `Navbar` targets the placeholder
"#"; none targets "/" or "/profile", and any two of them have the same
target. -/
theorem navbar_center_targets (env : RenderEnv) :
    ∃ l c r, navRegions (Navbar env) = [l, c, r] ∧
      c.links.map Node.target = [some "#", some "#", some "#", some "#"] ∧
      (∀ x ∈ c.links, x.target = some "#" ∧ x.target ≠ some "/" ∧
        x.target ≠ some "/profile") ∧
      (∀ x ∈ c.links, ∀ y ∈ c.links, x.target = y.target) := by
  refine ⟨_, _, _, rfl, rfl, ?_⟩
  have h : ∀ x ∈ Node.links ((navRegions (Navbar env)).getD 1 (.frag [])),
      x.target = some "#" := by
    intro x hx
    have hm : x.target ∈ (Node.links ((navRegions (Navbar env)).getD 1 (.frag []))).map
        Node.target := List.mem_map_of_mem _ hx
    have he : (Node.links ((navRegions (Navbar env)).getD 1 (.frag []))).map Node.target
        = [some "#", some "#", some "#", some "#"] := rfl
    rw [he] at hm
    simpa using hm
  refine ⟨fun x hx => ?_, fun x hx y hy => ?_⟩
  · have hx' := h x hx
    refine ⟨hx', ?_, ?_⟩ <;> rw [hx'] <;> decide
  · rw [h x hx, h y hy]

/-! ## Header -/

/-- C2: for every topbar component and every invocation, the tree produced
by `Header` is one `header` element whose child list is exactly the
rendering of the topbar followed by the rendering of `Navbar` (both invoked
without props); the three JSX comments and the text runs between the
children contribute no node. -/
theorem header_children (Topbar : Component) (env : RenderEnv) :
    Header Topbar env =
      Node.elem "header" [] [Topbar ⟨[], env.ambient⟩, Navbar ⟨[], env.ambient⟩] :=
  rfl

/-! ## Determinism -/

mutual
/-- An expression without reads, in a scope without components, evaluates to
the same result in any two environments. -/
theorem render_of_reads_nil (a b : RenderEnv) :
    ∀ j : Jsx, j.reads = [] → render a noComponents j = render b noComponents j
  | .text _, _ => rfl
  | .comment _, _ => rfl
  | .expr (.lit _), _ => rfl
  | .expr (.prop _), h => by simp [Jsx.reads] at h
  | .expr (.ambient _), h => by simp [Jsx.reads] at h
  | .elem _ _ children, h => by
    have hc := renderChildren_of_reads_nil a b children (by simpa [Jsx.reads] using h)
    simp [render, noComponents, hc]
  | .frag children, h => by
    have hc := renderChildren_of_reads_nil a b children (by simpa [Jsx.reads] using h)
    simp [render, hc]
/-- Children without reads, in a scope without components, evaluate to the
same list in any two environments. -/
theorem renderChildren_of_reads_nil (a b : RenderEnv) :
    ∀ cs : List Jsx, Jsx.readsList cs = [] →
      renderChildren a noComponents cs = renderChildren b noComponents cs
  | [], _ => rfl
  | c :: cs, h => by
    have h2 : Jsx.reads c = [] ∧ Jsx.readsList cs = [] := by
      simpa [Jsx.readsList] using h
    have hc := render_of_reads_nil a b c h2.1
    have hcs := renderChildren_of_reads_nil a b cs h2.2
    simp [renderChildren, hc, hcs]
end

/-- C9: rendering is deterministic. Neither JSX body holds a read of a prop
or of an ambient value (state, context, global); hence any two invocations
of `Navbar`, whatever their props and ambient values, give the same tree,
and for a topbar whose rendering is the same in both invocations, any two
invocations of `Header` give the same tree. -/
theorem render_deterministic (Topbar : Component) (e1 e2 : RenderEnv)
    (hTopbar : Topbar ⟨[], e1.ambient⟩ = Topbar ⟨[], e2.ambient⟩) :
    NavbarJsx.reads = [] ∧ HeaderJsx.reads = [] ∧
      Navbar e1 = Navbar e2 ∧ Header Topbar e1 = Header Topbar e2 := by
  have hnav : ∀ a b : RenderEnv, Navbar a = Navbar b := fun a b => by
    unfold Navbar renderRoot
    rw [render_of_reads_nil a b NavbarJsx rfl]
  have hheader : ∀ e : RenderEnv, Header Topbar e =
      Node.elem "header" [] [Topbar ⟨[], e.ambient⟩, Navbar ⟨[], e.ambient⟩] := fun _ => rfl
  refine ⟨rfl, rfl, hnav e1 e2, ?_⟩
  rw [hheader e1, hheader e2, hTopbar, hnav ⟨[], e1.ambient⟩ ⟨[], e2.ambient⟩]

/-- Instance of C9: two invocations with different props and different
ambient values, and a topbar that renders its `title` prop. -/
theorem render_deterministic_witness :
    (fun env : RenderEnv => Node.text ((env.props.lookup "title").getD "Welcome"))
        ⟨[], (⟨[("user", "ann")], fun _ => some "dark"⟩ : RenderEnv).ambient⟩ =
      (fun env : RenderEnv => Node.text ((env.props.lookup "title").getD "Welcome"))
        ⟨[], (⟨[], fun _ => none⟩ : RenderEnv).ambient⟩ ∧
      (NavbarJsx.reads = [] ∧ HeaderJsx.reads = [] ∧
        Navbar ⟨[("user", "ann")], fun _ => some "dark"⟩ = Navbar ⟨[], fun _ => none⟩ ∧
        Header (fun env : RenderEnv => Node.text ((env.props.lookup "title").getD "Welcome"))
            ⟨[("user", "ann")], fun _ => some "dark"⟩ =
          Header (fun env : RenderEnv => Node.text ((env.props.lookup "title").getD "Welcome"))
            ⟨[], fun _ => none⟩) :=
  ⟨rfl, render_deterministic _ _ _ rfl⟩

/-! ## Style configuration -/

/-- C6: `theme.extend.colors` of the configuration is the object with the
single entry "rabbit-red" mapped to "#ea2e0e". -/
theorem config_extend_colors :
    tailwindConfig.path? ["theme", "extend", "colors"] =
      some (JsVal.obj [("rabbit-red", JsVal.str "#ea2e0e")]) :=
  rfl

/-- C10: the `plugins` list of the configuration is empty. -/
theorem config_plugins_empty :
    tailwindConfig.get? "plugins" = some (JsVal.arr []) :=
  rfl

/-! ### Palette extension -/

/-- Reading a key after `setKey`: the assigned key has the new value, every
other key is unchanged. -/
theorem lookup_setKey (k : String) (v : JsVal) (k' : String) (base : Palette) :
    (setKey k v base).lookup k' = if k' = k then some v else base.lookup k' := by
  induction base with
  | nil =>
    by_cases h : k' = k
    · simp [setKey, List.lookup, h]
    · have hb : (k' == k) = false := by simpa using h
      simp [setKey, List.lookup, h, hb]
  | cons e rest ih =>
    obtain ⟨k0, v0⟩ := e
    by_cases h0 : k0 = k
    · by_cases h : k' = k
      · simp [setKey, List.lookup, h0, h]
      · have hb : (k' == k) = false := by simpa using h
        simp [setKey, List.lookup, h0, h, hb]
    · by_cases h1 : k' = k0
      · have hne : ¬ k' = k := fun e => h0 (h1 ▸ e)
        simp [setKey, List.lookup, h0, h1, hne]
      · have hb : (k' == k0) = false := by simpa using h1
        simp [setKey, List.lookup, h0, hb, ih]

/-- C7: the palette extension is additive. For every base palette, resolving
the configuration's colours leaves every key other than "rabbit-red" exactly
as the base palette has it (present with its original value), maps
"rabbit-red" to "#ea2e0e", and the configuration has no `theme.colors` key
that would replace the base palette. -/
theorem palette_extension_additive (base : Palette) (k : String) (h : k ≠ "rabbit-red") :
    (resolveColors tailwindConfig base).lookup k = base.lookup k ∧
      (resolveColors tailwindConfig base).lookup "rabbit-red" = some (JsVal.str "#ea2e0e") ∧
      tailwindConfig.path? ["theme", "colors"] = none := by
  have hr : resolveColors tailwindConfig base
      = setKey "rabbit-red" (JsVal.str "#ea2e0e") base := rfl
  refine ⟨?_, ?_, rfl⟩
  · rw [hr, lookup_setKey, if_neg h]
  · rw [hr, lookup_setKey, if_pos rfl]

/-- Instance of C7 at the base palette with the single colour "black". -/
theorem palette_extension_additive_witness :
    "black" ≠ "rabbit-red" ∧
      ((resolveColors tailwindConfig [("black", JsVal.str "#000")]).lookup "black"
          = List.lookup "black" [("black", JsVal.str "#000")] ∧
        (resolveColors tailwindConfig [("black", JsVal.str "#000")]).lookup "rabbit-red"
          = some (JsVal.str "#ea2e0e") ∧
        tailwindConfig.path? ["theme", "colors"] = none) :=
  ⟨by decide, palette_extension_additive [("black", JsVal.str "#000")] "black" (by decide)⟩

/-! ### Content patterns -/

/-- A continuation that holds on a path holds after `*` consumed nothing. -/
theorem starRest_of_here (k : List Char → Bool) (s : List Char) (h : k s = true) :
    starRest k s = true := by
  cases s with
  | nil => simpa [starRest] using h
  | cons c cs => simp [starRest, h]

/-- The token `*` consumes any run of characters without `/`. -/
theorem starRest_append (k : List Char → Bool) (name rest : List Char)
    (hname : '/' ∉ name) (h : k rest = true) : starRest k (name ++ rest) = true := by
  induction name with
  | nil => exact starRest_of_here k rest h
  | cons c cs ih =>
    have hc : c ≠ '/' := fun e => hname (by simp [e])
    have hcs : '/' ∉ cs := fun e => hname (List.mem_cons_of_mem _ e)
    simp [starRest, hc, ih hcs]

/-- Past a segment and its `/`, `afterSlash` reaches whatever `dirsRest`
reaches. -/
theorem afterSlash_append (k : List Char → Bool) (d rest : List Char)
    (h : dirsRest k rest = true) : afterSlash k (d ++ '/' :: rest) = true := by
  induction d with
  | nil =>
    simp only [dirsRest, Bool.or_eq_true] at h
    rcases h with h | h <;> simp [afterSlash, h]
  | cons c cs ih => simp [afterSlash, ih]

/-- The token `**/` consumes any number of nested directories. -/
theorem dirsRest_nestedDirs (k : List Char → Bool) (dirs : List String) (rest : List Char)
    (h : k rest = true) : dirsRest k ((nestedDirs dirs).data ++ rest) = true := by
  induction dirs with
  | nil => simp [nestedDirs, dirsRest, h]
  | cons d ds ih =>
    have hd : (nestedDirs (d :: ds)).data ++ rest
        = d.data ++ '/' :: ((nestedDirs ds).data ++ rest) := by
      simp [nestedDirs, String.data_append]
    rw [hd]
    simp [dirsRest, afterSlash_append k d.data _ ih]

/-- The tokens of the second content pattern. -/
theorem parseGlob_src :
    parseGlob .plain "./src/**/*.\x7bjs,ts,jsx,tsx\x7d".data =
      [.lit '.', .lit '/', .lit 's', .lit 'r', .lit 'c', .lit '/', .globstar, .star, .lit '.',
        .alt [['j', 's'], ['t', 's'], ['j', 's', 'x'], ['t', 's', 'x']]] :=
  rfl

/-- The characters of a path under the source tree. -/
theorem srcPath_data (dirs : List String) (name ext : String) :
    (srcPath dirs name ext).data =
      '.' :: '/' :: 's' :: 'r' :: 'c' :: '/' ::
        ((nestedDirs dirs).data ++ (name.data ++ '.' :: ext.data)) := by
  simp [srcPath, String.data_append]

/-- C8: the content list of the configuration is exactly "./index.html" and
"./src/**/*.\x7bjs,ts,jsx,tsx\x7d"; the first pattern matches "./index.html", and
for any nesting of directories and any file name with extension js, ts, jsx
or tsx the second pattern matches `./src/<directories>/<name>.<ext>`. -/
theorem content_patterns_cover (dirs : List String) (name ext : String)
    (hname : '/' ∉ name.data) (hext : ext ∈ ["js", "ts", "jsx", "tsx"]) :
    contentPatterns = ["./index.html", "./src/**/*.\x7bjs,ts,jsx,tsx\x7d"] ∧
      globMatch "./index.html" "./index.html" = true ∧
      globMatch "./src/**/*.\x7bjs,ts,jsx,tsx\x7d" (srcPath dirs name ext) = true := by
  refine ⟨rfl, by decide, ?_⟩
  have htail : matchToks
      [.lit '.', .alt [['j', 's'], ['t', 's'], ['j', 's', 'x'], ['t', 's', 'x']]]
      ('.' :: ext.data) = true := by
    simp only [List.mem_cons, List.mem_singleton, List.not_mem_nil, or_false] at hext
    rcases hext with h | h | h | h <;> subst h <;> decide
  have hstar := starRest_append _ name.data ('.' :: ext.data) hname htail
  have hdirs := dirsRest_nestedDirs _ dirs (name.data ++ '.' :: ext.data) hstar
  unfold globMatch
  rw [parseGlob_src, srcPath_data]
  simpa [matchToks] using hdirs

/-- Instance of C8 at the path "./src/components/Common/Navbar.jsx". -/
theorem content_patterns_cover_witness :
    '/' ∉ "Navbar".data ∧ "jsx" ∈ ["js", "ts", "jsx", "tsx"] ∧
      (contentPatterns = ["./index.html", "./src/**/*.\x7bjs,ts,jsx,tsx\x7d"] ∧
        globMatch "./index.html" "./index.html" = true ∧
        globMatch "./src/**/*.\x7bjs,ts,jsx,tsx\x7d"
          (srcPath ["components", "Common"] "Navbar" "jsx") = true) :=
  ⟨by decide, by decide,
    content_patterns_cover ["components", "Common"] "Navbar" "jsx" (by decide) (by decide)⟩

end Storefront
